import Mathlib

/-
  Shallow embedding of the DataSync QA Adapter:
    app/settings.py, app/schemas.py, app/auth.py, app/main.py,
    datasync-mock/src/sync_engine.py.

  Conventions of the embedding:
  * Library calls (PyJWT encode/decode, passlib bcrypt) are modelled by their
    contracts: a signed token records its payload and the signing secret, and
    decoding succeeds exactly when the verifying secret matches and the token
    is unexpired; bcrypt verification is an opaque total boolean parameter
    (the source wraps it in try/except, so it never raises).
  * Python exceptions become explicit Except / sum results; FastAPI maps a
    pydantic validator failure on the request body to an HTTP 422 response,
    and an HTTPException raised in a handler to its own status code.
  * `f"Invalid table names: {bad}"` and similar interpolated details are kept
    structurally (the constructor carries the interpolated data) rather than
    re-modelling Python repr formatting.
  * The filesystem state seen by one call of a file-reading helper is passed
    as an explicit argument, so "reads the file each time it is called" is the
    statement that each call is a pure function of the state it is given.
-/

namespace DataSync

/-- Configuration fields of `app/settings.py` class Settings that the claims
touch, with the source defaults. -/
structure Settings where
  ADMIN_USERNAME : String
  ADMIN_PASSWORD_HASH : Option String
  ADMIN_PASSWORD_PLAIN : Option String
  JWT_SECRET : String
  ACCESS_TOKEN_EXPIRE_HOURS : Nat
  ALLOWED_TABLES : List String
  DATASYNC_HOME : String
  deriving Repr

/-- The defaults declared in `app/settings.py`. -/
def default_settings : Settings :=
  { ADMIN_USERNAME := "admin"
    ADMIN_PASSWORD_HASH := none
    ADMIN_PASSWORD_PLAIN := some "adminadmin"
    JWT_SECRET := "dev_secret_change_me"
    ACCESS_TOKEN_EXPIRE_HOURS := 8
    ALLOWED_TABLES := []
    DATASYNC_HOME := "./datasync-mock" }

/-- Python truthiness of an `Optional[str]`: `None` and `""` are falsy. -/
def pyTruthy : Option String → Bool
  | none => false
  | some s => !s.isEmpty

/-! ## app/schemas.py -/

/-- Request body of `POST /sync` (`class SyncRequest`). -/
structure SyncRequest where
  tables : Option (List String)
  dry_run : Bool

/-- The exact message raised by the `_tables_min_len` field validator. -/
def tables_min_len_msg : String :=
  "ensure this value has at least 1 items; List should have at least 1 item"

/-- `SyncRequest._tables_min_len`: rejects a present-but-empty list,
passes `None` and non-empty lists through. -/
def _tables_min_len (v : Option (List String)) :
    Except String (Option (List String)) :=
  match v with
  | some l => if l.isEmpty then Except.error tables_min_len_msg else Except.ok v
  | none => Except.ok v

/-- Response model of `GET /status` (`class StatusResponse`, `extra` omitted:
no code path in scope populates it). -/
structure StatusReport where
  sqlserver : Bool
  mysql : Bool
  configured_tables : Nat
  enabled_tables : Nat
  system_health : String
  deriving DecidableEq, Repr

/-! ## Engine handles (`sync_engine` contract and the fallback) -/

/-- The two-operation contract of a loaded sync engine. `sync_all_tables`
may raise (modelled as `Except.error`). -/
structure Engine where
  get_sync_status : StatusReport
  sync_all_tables : List String → Bool → Except String Unit

/-- `datasync-mock/src/sync_engine.py`: the mock engine. Its
`sync_all_tables` substitutes a default table for a falsy argument and raises
on a name containing a semicolon or a space. -/
def mockEngine : Engine :=
  { get_sync_status :=
      { sqlserver := true
        mysql := true
        configured_tables := 1
        enabled_tables := 1
        system_health := "healthy-mock" }
    sync_all_tables := fun specific_tables _dry_run =>
      let tables :=
        if specific_tables.isEmpty then ["kpi_jornadas"] else specific_tables
      if tables.any (fun t => t.data.contains ';' || t.data.contains ' ') then
        Except.error "Nombre de tabla inválido"
      else Except.ok () }

/-- `app/main.py _load_sync_engine`: the import attempt is passed in as an
`Except` carrying either the loaded engine or the exception class name of the
failure. The function is total: it never propagates a load failure, it
degrades to the in-line `_Fallback` handle. -/
def _load_sync_engine (importResult : Except String Engine) : Engine :=
  match importResult with
  | Except.ok sync_engine => sync_engine
  | Except.error err_name =>
      { get_sync_status :=
          { sqlserver := false
            mysql := false
            configured_tables := 0
            enabled_tables := 0
            system_health := "fallback: " ++ err_name }
        sync_all_tables := fun _specific_tables _dry_run => Except.ok () }

/-- `GET /status` handler: loads the engine and returns its status report,
serialized by FastAPI with status code 200 (the report always carries every
required `StatusResponse` field). -/
def status (importResult : Except String Engine) : Nat × StatusReport :=
  (200, (_load_sync_engine importResult).get_sync_status)

/-! ## POST /sync -/

/-- The `detail` payloads of the error responses on the `/sync` path, kept
structurally instead of re-modelling Python string interpolation. -/
inductive Detail where
  | schemaValidation (msg : String)
  | invalidTableNames (bad : List String)
  | tableNotAllowed
  deriving DecidableEq, Repr

/-- Success body of `POST /sync`: `{"ok": True, "tables": tables,
"message": None}`. -/
structure SyncResponse where
  ok : Bool
  tables : List String
  message : Option String
  deriving DecidableEq, Repr

/-- Outcome of one `POST /sync` request. -/
inductive SyncOutcome where
  | failure (statusCode : Nat) (detail : Detail)
  | success (resp : SyncResponse)
  | engineRaised (msg : String)
  deriving DecidableEq, Repr

/-- Python `";" in t or " " in t`: the defensive name check of the `sync`
handler (a semicolon or a space character — no other whitespace; a one-char
needle is in a string exactly when that character occurs in it). -/
def has_bad_chars (t : String) : Bool :=
  t.data.contains ';' || t.data.contains ' '

/-- The `sync` handler body of `app/main.py`, after body validation. The
second component records the `engine.sync_all_tables` invocation (arguments)
when one happened, `none` when the engine was not invoked. -/
def sync_handler (st : Settings) (engine : Engine) (req : SyncRequest) :
    SyncOutcome × Option (List String × Bool) :=
  let tables := req.tables.getD []
  let bad := tables.filter has_bad_chars
  if !bad.isEmpty then
    (SyncOutcome.failure 400 (Detail.invalidTableNames bad), none)
  else
    let allowed := st.ALLOWED_TABLES
    if !allowed.isEmpty && tables.any (fun t => !allowed.contains t) then
      (SyncOutcome.failure 403 Detail.tableNotAllowed, none)
    else
      match engine.sync_all_tables tables req.dry_run with
      | Except.error m => (SyncOutcome.engineRaised m, some (tables, req.dry_run))
      | Except.ok _ =>
          (SyncOutcome.success { ok := true, tables := tables, message := none },
           some (tables, req.dry_run))

/-- Full `POST /sync` pipeline: pydantic body validation (a validator failure
is a 422 response and the handler never runs), then the handler. -/
def dispatchSync (st : Settings) (engine : Engine)
    (tables : Option (List String)) (dry_run : Bool) :
    SyncOutcome × Option (List String × Bool) :=
  match _tables_min_len tables with
  | Except.error msg => (SyncOutcome.failure 422 (Detail.schemaValidation msg), none)
  | Except.ok v => sync_handler st engine { tables := v, dry_run := dry_run }

/-! ## app/auth.py -/

/-- Claims carried by a JWT issued here. `exp` is an epoch second. -/
structure TokenPayload where
  sub : String
  exp : Nat
  deriving DecidableEq, Repr

/-- A bearer token as seen by `jwt.decode`: either a well-formed token signed
with some secret, or an undecodable string. -/
inductive Token where
  | signed (payload : TokenPayload) (secret : String)
  | garbage (raw : String)
  deriving DecidableEq, Repr

/-- `jwt.encode(payload, secret, algorithm="HS256")`. -/
def jwt_encode (payload : TokenPayload) (secret : String) : Token :=
  Token.signed payload secret

/-- Contract of `jwt.decode(token, secret, algorithms=["HS256"])` at time
`now`: succeeds exactly on a well-formed token whose signing secret matches
and whose expiry lies in the future. -/
def jwt_decode (tok : Token) (secret : String) (now : Nat) :
    Except Unit TokenPayload :=
  match tok with
  | Token.signed p s =>
      if s = secret && now < p.exp then Except.ok p else Except.error ()
  | Token.garbage _ => Except.error ()

/-- `create_access_token`: subject plus expiry = issue time + configured TTL,
signed with the configured secret. -/
def create_access_token (st : Settings) (now : Nat) (username : String) : Token :=
  jwt_encode
    { sub := username, exp := now + st.ACCESS_TOKEN_EXPIRE_HOURS * 3600 }
    st.JWT_SECRET

/-- Result of the `require_auth` dependency: the resolved username, or the
HTTPException it raises (status code and detail). -/
inductive AuthResult where
  | ok (username : String)
  | httpError (statusCode : Nat) (detail : String)
  deriving DecidableEq, Repr

/-- `require_auth`: decode the token; on any failure whatsoever raise the one
generic 401. -/
def require_auth (st : Settings) (now : Nat) (tok : Token) : AuthResult :=
  match jwt_decode tok st.JWT_SECRET now with
  | Except.ok decoded => AuthResult.ok decoded.sub
  | Except.error _ => AuthResult.httpError 401 "Invalid or expired token"

/-- `verify_password` is bcrypt behind try/except, hence a total boolean; it
is passed in as an opaque parameter `verify`. `authenticate_user`: admin
username match, then hash (if truthy) else plaintext (if present) else
reject. -/
def authenticate_user (st : Settings) (verify : String → String → Bool)
    (username password : String) : Bool :=
  if username ≠ st.ADMIN_USERNAME then false
  else if pyTruthy st.ADMIN_PASSWORD_HASH then
    verify password (st.ADMIN_PASSWORD_HASH.getD "")
  else
    match st.ADMIN_PASSWORD_PLAIN with
    | some plain => password = plain
    | none => false

/-! ## Coverage summary (`_read_coverage_summary`) -/

/-- State of `coverage.xml` as seen by one call: absent, unreadable
(`ET.parse` or `float` raises — both land in the same except clause), or
parsed with an optional numeric `line-rate` attribute (`none` = attribute
absent, in which case the source defaults it to `"0"`). -/
inductive CovFile where
  | missing
  | malformed
  | parsed (lineRate : Option ℚ)
  deriving DecidableEq

/-- Return value of `_read_coverage_summary`: `{"ok": ..., "percent": ...}`. -/
structure CoverageSummary where
  ok : Bool
  percent : Option ℚ
  deriving DecidableEq

/-- Python `round(x, 2)`: round to two decimal places. -/
def round2 (x : ℚ) : ℚ := ((round (x * 100) : ℤ) : ℚ) / 100

/-- `_read_coverage_summary`: a pure function of the file state it is handed
on this call. -/
def _read_coverage_summary (f : CovFile) : CoverageSummary :=
  match f with
  | CovFile.missing => { ok := false, percent := none }
  | CovFile.malformed => { ok := false, percent := none }
  | CovFile.parsed attr =>
      let line_rate := attr.getD 0
      { ok := true, percent := some (round2 (line_rate * 100)) }

/-- HTTP status code a `SyncOutcome` is reported with: an `HTTPException`
carries its own code, a normal return is a 200, an unhandled engine exception
is FastAPI's generic 500. -/
def statusCodeOf : SyncOutcome → Nat
  | SyncOutcome.failure sc _ => sc
  | SyncOutcome.success _ => 200
  | SyncOutcome.engineRaised _ => 500

/-! ## Helper lemmas (shared) -/

theorem dispatchSync_some_ne_nil (st : Settings) (eng : Engine) (ts : List String)
    (dry : Bool) (h : ts ≠ []) :
    dispatchSync st eng (some ts) dry
      = sync_handler st eng { tables := some ts, dry_run := dry } := by
  cases ts with
  | nil => exact absurd rfl h
  | cons a l => rfl

theorem filter_bad_eq_nil (ts : List String)
    (h : ∀ t ∈ ts, has_bad_chars t = false) : ts.filter has_bad_chars = [] :=
  List.filter_eq_nil_iff.mpr (by intro a ha; simp [h a ha])

theorem whitelist_cond_false (st : Settings) (ts : List String)
    (hwl : st.ALLOWED_TABLES = [] ∨ ∀ t ∈ ts, st.ALLOWED_TABLES.contains t = true) :
    (!st.ALLOWED_TABLES.isEmpty && ts.any fun t => !st.ALLOWED_TABLES.contains t)
      = false := by
  rcases hwl with h | h
  · simp [h]
  · have hany : (ts.any fun t => !st.ALLOWED_TABLES.contains t) = false := by
      rw [List.any_eq_false]
      intro t ht
      simpa using h t ht
    rw [hany, Bool.and_false]

theorem sync_handler_past_checks (st : Settings) (eng : Engine) (ts : List String)
    (dry : Bool)
    (hgood : ts.filter has_bad_chars = [])
    (hwl : (!st.ALLOWED_TABLES.isEmpty && ts.any fun t => !st.ALLOWED_TABLES.contains t)
            = false) :
    sync_handler st eng { tables := some ts, dry_run := dry }
      = (match eng.sync_all_tables ts dry with
         | Except.error m => (SyncOutcome.engineRaised m, some (ts, dry))
         | Except.ok _ =>
            (SyncOutcome.success { ok := true, tables := ts, message := none },
             some (ts, dry))) := by
  unfold sync_handler
  simp only [Option.getD_some, hgood, List.isEmpty_nil, Bool.not_true,
    Bool.false_eq_true, if_false, hwl, if_neg]

theorem sync_handler_success (st : Settings) (eng : Engine) (ts : List String)
    (dry : Bool)
    (hgood : ts.filter has_bad_chars = [])
    (hwl : (!st.ALLOWED_TABLES.isEmpty && ts.any fun t => !st.ALLOWED_TABLES.contains t)
            = false)
    (hok : eng.sync_all_tables ts dry = Except.ok ()) :
    sync_handler st eng { tables := some ts, dry_run := dry }
      = (SyncOutcome.success { ok := true, tables := ts, message := none },
         some (ts, dry)) := by
  rw [sync_handler_past_checks st eng ts dry hgood hwl, hok]

/-! ## Claim theorems -/

/-- C1 (counterexample): the claim says an explicitly empty `tables` list is
reported as HTTP 400; on the concrete request `{"tables": [], "dry_run":
true}` the pydantic validator `_tables_min_len` raises before the handler
runs, which FastAPI reports as HTTP 422, not 400 — the status code is 422 and
422 ≠ 400. -/
theorem sync_empty_tables_counterexample :
    dispatchSync default_settings mockEngine (some []) true
      = (SyncOutcome.failure 422 (Detail.schemaValidation tables_min_len_msg), none)
    ∧ statusCodeOf (dispatchSync default_settings mockEngine (some []) true).1 = 422
    ∧ statusCodeOf (dispatchSync default_settings mockEngine (some []) true).1 ≠ 400 := by
  refine ⟨by decide, by decide, by decide⟩

/-- C1 (amended): for every configuration, engine and dry-run flag, a sync
request whose `tables` field is present but empty fails with the
`_tables_min_len` validation error reported as HTTP 422 (not 400), and the
engine is not invoked. -/
theorem sync_empty_tables_rejected (st : Settings) (eng : Engine) (dry : Bool) :
    dispatchSync st eng (some []) dry
      = (SyncOutcome.failure 422 (Detail.schemaValidation tables_min_len_msg), none) :=
  rfl

/-- C2 (counterexample): the claim says any element containing a whitespace
character is rejected with 400; the element `"a\tb"` contains a whitespace
character (a tab), yet the request succeeds and the engine is invoked — the
handler only checks for a semicolon or a space. -/
theorem sync_tab_name_counterexample :
    ("a\tb".data.any Char.isWhitespace = true)
    ∧ dispatchSync default_settings mockEngine (some ["a\tb"]) true
        = (SyncOutcome.success { ok := true, tables := ["a\tb"], message := none },
           some (["a\tb"], true)) := by
  refine ⟨by decide, by decide⟩

/-- C2 (amended): for every sync request whose table list contains an element
with a semicolon or a space character (U+0020 — the only whitespace the code
checks; other whitespace such as tab is not caught), `dispatchSync` collects
all such elements and fails with the invalid-table-names HTTPException (HTTP
400) listing them, before the whitelist check and before invoking the engine;
this holds for every configured whitelist and every engine, so a list holding
both an invalid name and a non-whitelisted name yields 400, not 403. -/
theorem sync_rejects_bad_names (st : Settings) (eng : Engine) (ts : List String)
    (dry : Bool) (h : ts.any has_bad_chars = true) :
    dispatchSync st eng (some ts) dry
      = (SyncOutcome.failure 400 (Detail.invalidTableNames (ts.filter has_bad_chars)),
         none) := by
  have hne : ts ≠ [] := by rintro rfl; simp at h
  rw [dispatchSync_some_ne_nil st eng ts dry hne]
  unfold sync_handler
  have hbad : (ts.filter has_bad_chars).isEmpty = false := by
    rw [Bool.eq_false_iff]
    intro hempty
    obtain ⟨x, hx, hpx⟩ := List.any_eq_true.mp h
    have := List.filter_eq_nil_iff.mp (List.isEmpty_iff.mp hempty) x hx
    exact this hpx
  simp only [Option.getD_some, hbad, Bool.not_false, if_true]

/-- C2 (witness): a list whose first element holds a semicolon and a space
and whose second element is well-formed but absent from the non-empty
whitelist is rejected with 400 (not 403), listing exactly the bad element,
with no engine invocation. -/
theorem sync_rejects_bad_names_witness :
    dispatchSync { default_settings with ALLOWED_TABLES := ["t1"] } mockEngine
        (some ["users; DROP TABLE", "t9"]) true
      = (SyncOutcome.failure 400
          (Detail.invalidTableNames
            (["users; DROP TABLE", "t9"].filter has_bad_chars)), none)
    ∧ ["users; DROP TABLE", "t9"].filter has_bad_chars = ["users; DROP TABLE"] :=
  ⟨sync_rejects_bad_names { default_settings with ALLOWED_TABLES := ["t1"] }
      mockEngine ["users; DROP TABLE", "t9"] true (by decide), by decide⟩

/-- C5: whenever a non-empty whitelist is configured and at least one table
in a well-formed requested table list is not a member of the whitelist,
`dispatchSync` fails with the whitelist HTTPException (HTTP 403) and the
engine is not invoked; and when the whitelist is empty, no request — whatever
its table list — produces a 403 failure. -/
theorem sync_whitelist_enforced (st : Settings) (eng : Engine) (ts : List String)
    (tables : Option (List String)) (dry : Bool) :
    (st.ALLOWED_TABLES ≠ [] →
      (∀ t ∈ ts, has_bad_chars t = false) →
      (∃ t ∈ ts, st.ALLOWED_TABLES.contains t = false) →
      dispatchSync st eng (some ts) dry
        = (SyncOutcome.failure 403 Detail.tableNotAllowed, none))
    ∧ (st.ALLOWED_TABLES = [] →
        ∀ d c, dispatchSync st eng tables dry ≠ (SyncOutcome.failure 403 d, c)) := by
  constructor
  · intro hw hgood hmem
    have hne : ts ≠ [] := by
      rintro rfl
      obtain ⟨t, ht, -⟩ := hmem
      exact absurd ht (List.not_mem_nil t)
    rw [dispatchSync_some_ne_nil st eng ts dry hne]
    unfold sync_handler
    have hfil : ts.filter has_bad_chars = [] := filter_bad_eq_nil ts hgood
    have hempty : (!st.ALLOWED_TABLES.isEmpty) = true := by
      simp [List.isEmpty_iff, hw]
    have hany : (ts.any fun t => !st.ALLOWED_TABLES.contains t) = true := by
      obtain ⟨t, ht, hc⟩ := hmem
      exact List.any_eq_true.mpr ⟨t, ht, by simpa using hc⟩
    simp only [Option.getD_some, hfil, List.isEmpty_nil, Bool.not_true,
      Bool.false_eq_true, if_false, hempty, hany, Bool.and_self, if_true]
  · intro hw d c
    cases tables with
    | none =>
      unfold dispatchSync _tables_min_len sync_handler
      simp only [Option.getD_none, List.filter_nil, List.isEmpty_nil,
        Bool.not_true, Bool.false_eq_true, if_false, hw, List.any_nil,
        Bool.and_false]
      cases eng.sync_all_tables [] dry <;> simp
    | some l =>
      cases l with
      | nil =>
        have hval : dispatchSync st eng (some []) dry
            = (SyncOutcome.failure 422 (Detail.schemaValidation tables_min_len_msg),
               none) := rfl
        rw [hval]
        simp
      | cons a l =>
        rw [dispatchSync_some_ne_nil st eng (a :: l) dry (by simp)]
        unfold sync_handler
        simp only [Option.getD_some, hw]
        by_cases hbad : ((a :: l).filter has_bad_chars).isEmpty = false
        · simp only [hbad, Bool.not_false, if_true]
          intro hcontra
          exact absurd (congrArg Prod.fst hcontra) (by simp)
        · have : ((a :: l).filter has_bad_chars).isEmpty = true := by
            revert hbad; cases ((a :: l).filter has_bad_chars).isEmpty <;> simp
          simp only [this, Bool.not_true, Bool.false_eq_true, if_false,
            List.isEmpty_nil, List.any_cons, Bool.false_and]
          cases eng.sync_all_tables (a :: l) dry <;> simp

/-- C5 (witness): with whitelist `["t1"]`, the well-formed request for
`["t2"]` fails 403 without touching the engine; with the default empty
whitelist the same request does not produce a 403. -/
theorem sync_whitelist_enforced_witness :
    dispatchSync { default_settings with ALLOWED_TABLES := ["t1"] } mockEngine
        (some ["t2"]) true
      = (SyncOutcome.failure 403 Detail.tableNotAllowed, none)
    ∧ dispatchSync default_settings mockEngine (some ["t2"]) true
        ≠ (SyncOutcome.failure 403 Detail.tableNotAllowed, none) :=
  ⟨(sync_whitelist_enforced { default_settings with ALLOWED_TABLES := ["t1"] }
      mockEngine ["t2"] (some ["t2"]) true).1 (by decide) (by decide)
      ⟨"t2", by decide, by decide⟩,
   (sync_whitelist_enforced default_settings mockEngine ["t2"] (some ["t2"])
      true).2 rfl Detail.tableNotAllowed none⟩

/-- C6: a sync request with `tables` absent/null is treated as "sync
everything": the engine's `sync_all_tables` is invoked with the empty table
sequence and the request's dry-run flag, and (the engine call returning
normally) the response is exactly `{ ok := true, tables := [], message :=
none }`; a well-formed non-empty list that passes the whitelist gets
`{ ok := true, tables := ts, message := none }` with the same invocation
record. -/
theorem sync_success_shape (st : Settings) (eng : Engine) (dry : Bool)
    (ts : List String) :
    ((dispatchSync st eng none dry).2 = some ([], dry))
    ∧ (eng.sync_all_tables [] dry = Except.ok () →
        dispatchSync st eng none dry
          = (SyncOutcome.success { ok := true, tables := [], message := none },
             some ([], dry)))
    ∧ (ts ≠ [] →
        (∀ t ∈ ts, has_bad_chars t = false) →
        (st.ALLOWED_TABLES = [] ∨ ∀ t ∈ ts, st.ALLOWED_TABLES.contains t = true) →
        eng.sync_all_tables ts dry = Except.ok () →
        dispatchSync st eng (some ts) dry
          = (SyncOutcome.success { ok := true, tables := ts, message := none },
             some (ts, dry))) := by
  have hnone : dispatchSync st eng none dry
      = sync_handler st eng { tables := none, dry_run := dry } := rfl
  have hnil : sync_handler st eng { tables := none, dry_run := dry }
      = (match eng.sync_all_tables [] dry with
         | Except.error m => (SyncOutcome.engineRaised m, some ([], dry))
         | Except.ok _ =>
            (SyncOutcome.success { ok := true, tables := [], message := none },
             some ([], dry))) := by
    unfold sync_handler
    simp only [Option.getD_none, List.filter_nil, List.isEmpty_nil,
      Bool.not_true, Bool.false_eq_true, if_false, List.any_nil,
      Bool.and_false]
  refine ⟨?_, ?_, ?_⟩
  · rw [hnone, hnil]
    cases eng.sync_all_tables [] dry <;> rfl
  · intro hok
    rw [hnone, hnil, hok]
  · intro hne hgood hwl hok
    rw [dispatchSync_some_ne_nil st eng ts dry hne]
    exact sync_handler_success st eng ts dry (filter_bad_eq_nil ts hgood)
      (whitelist_cond_false st ts hwl) hok

/-- C6 (witness): with the defaults and the mock engine, the null request
returns the empty-tables success after invoking the engine on `([], true)`,
and the request for `["kpi_jornadas"]` returns it in the response. -/
theorem sync_success_shape_witness :
    dispatchSync default_settings mockEngine none true
      = (SyncOutcome.success { ok := true, tables := [], message := none },
         some ([], true))
    ∧ dispatchSync default_settings mockEngine (some ["kpi_jornadas"]) true
        = (SyncOutcome.success
            { ok := true, tables := ["kpi_jornadas"], message := none },
           some (["kpi_jornadas"], true)) :=
  ⟨(sync_success_shape default_settings mockEngine true ["kpi_jornadas"]).2.1
      (by rfl),
   (sync_success_shape default_settings mockEngine true ["kpi_jornadas"]).2.2
      (by decide) (by decide) (Or.inl rfl) (by rfl)⟩

/-- C9: for every configuration — whitelist included — a request with
`tables` absent/null never fails: the whitelist membership check is vacuous
over the empty list, the engine is invoked with the empty sequence (sync
everything), and in particular no such request produces the 403 whitelist
failure. -/
theorem sync_null_tables_bypasses_whitelist (st : Settings) (eng : Engine)
    (dry : Bool) :
    ((dispatchSync st eng none dry).2 = some ([], dry))
    ∧ (∀ sc d c, dispatchSync st eng none dry ≠ (SyncOutcome.failure sc d, c)) := by
  have hnil : dispatchSync st eng none dry
      = (match eng.sync_all_tables [] dry with
         | Except.error m => (SyncOutcome.engineRaised m, some ([], dry))
         | Except.ok _ =>
            (SyncOutcome.success { ok := true, tables := [], message := none },
             some ([], dry))) := by
    show sync_handler st eng { tables := none, dry_run := dry } = _
    unfold sync_handler
    simp only [Option.getD_none, List.filter_nil, List.isEmpty_nil,
      Bool.not_true, Bool.false_eq_true, if_false, List.any_nil,
      Bool.and_false]
  constructor
  · rw [hnil]; cases eng.sync_all_tables [] dry <;> rfl
  · intro sc d c
    rw [hnil]
    cases eng.sync_all_tables [] dry <;> simp

/-- C9 (witness): with a non-empty whitelist `["t1"]` the null request still
invokes the engine on all tables and does not yield the 403 whitelist
failure. -/
theorem sync_null_tables_bypasses_whitelist_witness :
    ((dispatchSync { default_settings with ALLOWED_TABLES := ["t1"] } mockEngine
        none true).2 = some ([], true))
    ∧ dispatchSync { default_settings with ALLOWED_TABLES := ["t1"] } mockEngine
        none true ≠ (SyncOutcome.failure 403 Detail.tableNotAllowed, none) :=
  ⟨(sync_null_tables_bypasses_whitelist
      { default_settings with ALLOWED_TABLES := ["t1"] } mockEngine true).1,
   (sync_null_tables_bypasses_whitelist
      { default_settings with ALLOWED_TABLES := ["t1"] } mockEngine true).2
      403 Detail.tableNotAllowed none⟩

/-- C10: when the engine module cannot be loaded (fallback engine), every
well-formed, whitelist-passing sync request still succeeds with
`{ ok := true, tables := ts, message := none }`; the fallback's
`sync_all_tables` is a no-op (`Except.ok ()`), the null request succeeds the
same way, and for any engine whose call returns normally the `/sync` response
is identical to the fallback's — the dispatcher never inspects the engine's
result. -/
theorem sync_succeeds_under_fallback (st : Settings) (e : String)
    (ts : List String) (dry : Bool)
    (hne : ts ≠ [])
    (hgood : ∀ t ∈ ts, has_bad_chars t = false)
    (hwl : st.ALLOWED_TABLES = [] ∨ ∀ t ∈ ts, st.ALLOWED_TABLES.contains t = true) :
    dispatchSync st (_load_sync_engine (Except.error e)) (some ts) dry
      = (SyncOutcome.success { ok := true, tables := ts, message := none },
         some (ts, dry))
    ∧ ((_load_sync_engine (Except.error e)).sync_all_tables ts dry = Except.ok ())
    ∧ dispatchSync st (_load_sync_engine (Except.error e)) none dry
        = (SyncOutcome.success { ok := true, tables := [], message := none },
           some ([], dry))
    ∧ (∀ eng : Engine, eng.sync_all_tables ts dry = Except.ok () →
        dispatchSync st eng (some ts) dry
          = dispatchSync st (_load_sync_engine (Except.error e)) (some ts) dry) := by
  have hfallOk : ∀ l d, (_load_sync_engine (Except.error e)).sync_all_tables l d
      = Except.ok () := fun _ _ => rfl
  have hfall : dispatchSync st (_load_sync_engine (Except.error e)) (some ts) dry
      = (SyncOutcome.success { ok := true, tables := ts, message := none },
         some (ts, dry)) := by
    rw [dispatchSync_some_ne_nil st _ ts dry hne]
    exact sync_handler_success st _ ts dry (filter_bad_eq_nil ts hgood)
      (whitelist_cond_false st ts hwl) (hfallOk ts dry)
  refine ⟨hfall, hfallOk ts dry, ?_, ?_⟩
  · show sync_handler st (_load_sync_engine (Except.error e))
        { tables := none, dry_run := dry } = _
    unfold sync_handler
    simp only [Option.getD_none, List.filter_nil, List.isEmpty_nil,
      Bool.not_true, Bool.false_eq_true, if_false, List.any_nil,
      Bool.and_false, hfallOk]
  · intro eng hok
    rw [hfall, dispatchSync_some_ne_nil st eng ts dry hne]
    exact sync_handler_success st eng ts dry (filter_bad_eq_nil ts hgood)
      (whitelist_cond_false st ts hwl) hok

/-- C10 (witness): with whitelist `["t1"]` and an `ImportError` fallback, the
request for `["t1"]` succeeds exactly as it would under the mock engine, and
the fallback call is a no-op. -/
theorem sync_succeeds_under_fallback_witness :
    dispatchSync { default_settings with ALLOWED_TABLES := ["t1"] }
        (_load_sync_engine (Except.error "ImportError")) (some ["t1"]) true
      = (SyncOutcome.success { ok := true, tables := ["t1"], message := none },
         some (["t1"], true))
    ∧ (_load_sync_engine (Except.error "ImportError")).sync_all_tables ["t1"] true
        = Except.ok ()
    ∧ dispatchSync { default_settings with ALLOWED_TABLES := ["t1"] } mockEngine
        (some ["t1"]) true
      = dispatchSync { default_settings with ALLOWED_TABLES := ["t1"] }
          (_load_sync_engine (Except.error "ImportError")) (some ["t1"]) true := by
  have h := sync_succeeds_under_fallback
    { default_settings with ALLOWED_TABLES := ["t1"] } "ImportError" ["t1"] true
    (by decide) (by decide) (Or.inr (by decide))
  exact ⟨h.1, h.2.1, h.2.2.2 mockEngine (by rfl)⟩

/-- C3: verifying a token freshly issued for a username — under the same
secret, before the configured TTL elapses — returns that username; a token
signed under a different secret (tampered/forged) or already expired, and an
undecodable token, all fail with the single generic 401 "Invalid or expired
token"; and every failure of `require_auth` carries exactly that one status
and detail — no cause is distinguished. -/
theorem token_service_spec (st : Settings) (now : Nat) :
    (∀ (u : String) (t0 : Nat),
      now < t0 + st.ACCESS_TOKEN_EXPIRE_HOURS * 3600 →
      require_auth st now (create_access_token st t0 u) = AuthResult.ok u)
    ∧ (∀ (p : TokenPayload) (sec : String),
        sec ≠ st.JWT_SECRET ∨ p.exp ≤ now →
        require_auth st now (Token.signed p sec)
          = AuthResult.httpError 401 "Invalid or expired token")
    ∧ (∀ raw : String,
        require_auth st now (Token.garbage raw)
          = AuthResult.httpError 401 "Invalid or expired token")
    ∧ (∀ (tok : Token) (sc : Nat) (d : String),
        require_auth st now tok = AuthResult.httpError sc d →
        sc = 401 ∧ d = "Invalid or expired token") := by
  refine ⟨?_, ?_, ?_, ?_⟩
  · intro u t0 h
    simp [require_auth, create_access_token, jwt_encode, jwt_decode, h]
  · intro p sec h
    rcases h with h | h
    · simp [require_auth, jwt_decode, h]
    · simp [require_auth, jwt_decode, Nat.not_lt.mpr h]
  · intro raw
    rfl
  · intro tok sc d h
    cases tok with
    | garbage raw =>
      simp only [require_auth, jwt_decode] at h
      injection h with h1 h2
      exact ⟨h1.symm, h2.symm⟩
    | signed p s =>
      simp only [require_auth, jwt_decode] at h
      by_cases hc : (s = st.JWT_SECRET && decide (now < p.exp)) = true
      · rw [if_pos hc] at h; cases h
      · rw [if_neg hc] at h
        injection h with h1 h2
        exact ⟨h1.symm, h2.symm⟩

/-- C3 (witness): at time 100, a token issued at time 0 for "admin" under the
default settings verifies back to "admin"; an expired token and a garbage
token each fail with the generic 401. -/
theorem token_service_spec_witness :
    require_auth default_settings 100 (create_access_token default_settings 0 "admin")
      = AuthResult.ok "admin"
    ∧ require_auth default_settings 100
        (Token.signed { sub := "admin", exp := 99 } "dev_secret_change_me")
      = AuthResult.httpError 401 "Invalid or expired token"
    ∧ require_auth default_settings 100 (Token.garbage "not-a-jwt")
      = AuthResult.httpError 401 "Invalid or expired token" :=
  ⟨(token_service_spec default_settings 100).1 "admin" 0 (by decide),
   (token_service_spec default_settings 100).2.1 _ _ (Or.inr (by decide)),
   (token_service_spec default_settings 100).2.2.1 "not-a-jwt"⟩

/-- C4: `_load_sync_engine` never raises — it is total, and on any load
failure it returns the fallback handle whose status report has `sqlserver =
false`, `mysql = false`, `configured_tables = 0`, `enabled_tables = 0` and a
`system_health` equal to the literal substring "fallback:" followed by a
space and the failure's exception class name, and whose `sync_all_tables` is
a no-op; hence `GET /status` answers 200 with that report even when the
engine module cannot be loaded, and indeed answers 200 on every load
outcome. -/
theorem engine_loader_fallback_spec (e : String) :
    ((_load_sync_engine (Except.error e)).get_sync_status
      = { sqlserver := false, mysql := false, configured_tables := 0,
          enabled_tables := 0, system_health := "fallback: " ++ e })
    ∧ ((_load_sync_engine (Except.error e)).get_sync_status.system_health
        = "fallback:" ++ (" " ++ e))
    ∧ (∀ (ts : List String) (d : Bool),
        (_load_sync_engine (Except.error e)).sync_all_tables ts d = Except.ok ())
    ∧ (status (Except.error e)
        = (200, (_load_sync_engine (Except.error e)).get_sync_status))
    ∧ (∀ r : Except String Engine, (status r).1 = 200) := by
  refine ⟨rfl, ?_, fun _ _ => rfl, rfl, fun _ => rfl⟩
  show "fallback: " ++ e = "fallback:" ++ (" " ++ e)
  rw [← String.append_assoc]
  rfl

/-- C7: `authenticate_user` returns true exactly when the username equals the
configured admin identity and either a (truthy, i.e. present and non-empty)
hash is configured and verification of the given password against it
succeeds, or no hash is configured, a plaintext password is configured, and
the given password equals it; when a hash is configured the plaintext
credential is never consulted (the result is unchanged under any plaintext
setting); when neither is configured the function returns false. -/
theorem authenticate_user_spec (st : Settings) (verify : String → String → Bool)
    (u p : String) :
    (authenticate_user st verify u p = true ↔
      (u = st.ADMIN_USERNAME ∧
        ((pyTruthy st.ADMIN_PASSWORD_HASH = true ∧
            verify p (st.ADMIN_PASSWORD_HASH.getD "") = true) ∨
         (pyTruthy st.ADMIN_PASSWORD_HASH = false ∧
            ∃ plain, st.ADMIN_PASSWORD_PLAIN = some plain ∧ p = plain))))
    ∧ (pyTruthy st.ADMIN_PASSWORD_HASH = true →
        ∀ q : Option String,
          authenticate_user { st with ADMIN_PASSWORD_PLAIN := q } verify u p
            = authenticate_user st verify u p)
    ∧ (pyTruthy st.ADMIN_PASSWORD_HASH = false →
        st.ADMIN_PASSWORD_PLAIN = none →
        authenticate_user st verify u p = false) := by
  refine ⟨?_, ?_, ?_⟩
  · unfold authenticate_user
    by_cases hu : u = st.ADMIN_USERNAME
    · simp only [hu, ne_eq, not_true_eq_false, if_false, true_and]
      by_cases hh : pyTruthy st.ADMIN_PASSWORD_HASH = true
      · simp [hh]
      · have hh' : pyTruthy st.ADMIN_PASSWORD_HASH = false := by
          revert hh; cases pyTruthy st.ADMIN_PASSWORD_HASH <;> simp
        simp only [hh', Bool.false_eq_true, if_false]
        cases hplain : st.ADMIN_PASSWORD_PLAIN with
        | none => simp
        | some plain => simp [hplain]
    · simp [hu]
  · intro hh q
    unfold authenticate_user
    by_cases hu : u = st.ADMIN_USERNAME <;> simp [hu, hh]
  · intro hh hplain
    unfold authenticate_user
    by_cases hu : u = st.ADMIN_USERNAME <;> simp [hu, hh, hplain]

/-- C7 (witness): with a configured hash and a verifier accepting exactly
"pw", authentication succeeds for ("admin", "pw"), the plaintext credential
is irrelevant, and with neither credential configured it fails. -/
theorem authenticate_user_spec_witness :
    authenticate_user
        { default_settings with ADMIN_PASSWORD_HASH := some "h1" }
        (fun pw _ => pw = "pw") "admin" "pw" = true
    ∧ authenticate_user
        { default_settings with ADMIN_PASSWORD_HASH := some "h1",
                                ADMIN_PASSWORD_PLAIN := some "other" }
        (fun pw _ => pw = "pw") "admin" "pw"
      = authenticate_user
          { default_settings with ADMIN_PASSWORD_HASH := some "h1" }
          (fun pw _ => pw = "pw") "admin" "pw"
    ∧ authenticate_user
        { default_settings with ADMIN_PASSWORD_PLAIN := none }
        (fun pw _ => pw = "pw") "admin" "pw" = false :=
  ⟨(authenticate_user_spec { default_settings with ADMIN_PASSWORD_HASH := some "h1" }
      (fun pw _ => pw = "pw") "admin" "pw").1.mpr
      ⟨rfl, Or.inl ⟨by decide, by decide⟩⟩,
   (authenticate_user_spec { default_settings with ADMIN_PASSWORD_HASH := some "h1" }
      (fun pw _ => pw = "pw") "admin" "pw").2.1 (by decide) (some "other"),
   (authenticate_user_spec { default_settings with ADMIN_PASSWORD_PLAIN := none }
      (fun pw _ => pw = "pw") "admin" "pw").2.2 rfl rfl⟩

/-- C8: `_read_coverage_summary` is a pure function of the coverage-file
state it reads on each call; it is unavailable (`ok = false`, and then
`percent = none`) exactly when the file is missing or malformed, and on a
parsed report with a `line-rate` attribute `r` it returns available with
percentage `round2 (r * 100)` — the line rate times 100 rounded to two
decimal places. -/
theorem coverage_summary_spec (f : CovFile) :
    ((_read_coverage_summary f).ok = false ↔
      f = CovFile.missing ∨ f = CovFile.malformed)
    ∧ ((_read_coverage_summary f).ok = false →
        (_read_coverage_summary f).percent = none)
    ∧ (∀ r : ℚ, f = CovFile.parsed (some r) →
        _read_coverage_summary f
          = { ok := true, percent := some (round2 (r * 100)) }) := by
  refine ⟨?_, ?_, ?_⟩
  · cases f <;> simp [_read_coverage_summary]
  · cases f <;> simp [_read_coverage_summary]
  · intro r hf
    subst hf
    simp [_read_coverage_summary]

/-- C8 (witness): a parsed report with line-rate 87654/100000 (0.87654)
yields an available summary, whose percentage rounds to 87.65; a missing file
is unavailable with a null percentage. -/
theorem coverage_summary_spec_witness :
    _read_coverage_summary (CovFile.parsed (some (87654/100000)))
      = { ok := true, percent := some (round2 ((87654/100000 : ℚ) * 100)) }
    ∧ round2 ((87654/100000 : ℚ) * 100) = 8765/100
    ∧ (_read_coverage_summary CovFile.missing).ok = false
    ∧ (_read_coverage_summary CovFile.missing).percent = none :=
  ⟨(coverage_summary_spec (CovFile.parsed (some (87654/100000)))).2.2
      (87654/100000) rfl,
   by rw [round2, round_eq]; norm_num,
   (coverage_summary_spec CovFile.missing).1.mpr (Or.inl rfl),
   (coverage_summary_spec CovFile.missing).2.1
      ((coverage_summary_spec CovFile.missing).1.mpr (Or.inl rfl))⟩

end DataSync
